import Mathlib

/-
  Shallow embedding of the seahorse-sharing daemon core:
  - the HKP Key Lookup Server and its response renderer
    (src/daemon/seahorse-hkp-server.c), and
  - the Avahi Service Advertisement Manager state machine
    (the sharing module).

  Machine strings are modelled as Lean String (lists of characters);
  the keystore (gpgme) and the Avahi transport are external collaborators,
  modelled as explicit parameters.  libc gmtime_r/strftime are embedded as
  the standard proleptic-Gregorian civil-from-days conversion.
-/

/-! ## String helpers from seahorse-hkp-server.c -/

/-- `last_x str len`: returns the last `len` characters of `str`
(the whole string when it is no longer than `len`). -/
def last_x (str : String) (len : Nat) : String :=
  if str.length > len then String.mk (str.data.drop (str.length - len)) else str

/-- One step of `escape_html`: the replacement text for a single character.
The C loop copies runs of ordinary characters and replaces each of
the four critical characters by its entity. -/
def escape_html_char (c : Char) : String :=
  if c = '<' then "&lt;"
  else if c = '>' then "&gt;"
  else if c = '&' then "&amp;"
  else if c = '\"' then "&quot;"
  else String.mk [c]

/-- `escape_html`: replaces the critical characters of the string. -/
def escape_html (s : String) : String :=
  String.join (s.data.map escape_html_char)

/-- Helper for `format_key_fingerprint`: inserts a space before every
character whose index is a positive multiple of 4. -/
def fpr_space_chars : List Char → Nat → List Char
  | [], _ => []
  | c :: cs, i =>
    (if i > 0 && i % 4 == 0 then [' ', c] else [c]) ++ fpr_space_chars cs (i + 1)

/-- `format_key_fingerprint`: groups a fingerprint into 4-character blocks
separated by spaces. -/
def format_key_fingerprint (fpr : String) : String :=
  String.mk (fpr_space_chars fpr.data 0)

/-- `g_ascii_tolower` on a single character: lowers only ASCII A-Z. -/
def g_ascii_tolower (c : Char) : Char :=
  if 'A' ≤ c ∧ c ≤ 'Z' then Char.ofNat (c.toNat + 32) else c

/-- `g_ascii_strcasecmp (a, b) == 0`: ASCII case-insensitive equality. -/
def g_ascii_strcaseeq (a b : String) : Bool :=
  a.data.map g_ascii_tolower == b.data.map g_ascii_tolower

/-- Whether `needle` is an initial segment of `hay`. -/
def chars_head_eq : List Char → List Char → Bool
  | [], _ => true
  | _ :: _, [] => false
  | a :: as, b :: bs => a == b && chars_head_eq as bs

/-- Whether `needle` occurs in `hay` as a contiguous segment. -/
def chars_has (needle : List Char) : List Char → Bool
  | [] => chars_head_eq needle []
  | c :: t => chars_head_eq needle (c :: t) || chars_has needle t

/-- Whether `needle` occurs in `hay` as a contiguous substring. -/
def strContains (hay needle : String) : Bool :=
  chars_has needle.data hay.data

/-- Whether `pre` is an initial segment of `s` (path-prefix dispatch). -/
def strStarts (s pre : String) : Bool :=
  chars_head_eq pre.data s.data

/-- printf "% 5d" for a non-negative value: the space flag prepends one
space, then the result is left-padded with spaces to width 5. -/
def printf_space5d (n : Nat) : String :=
  let s := " " ++ toString n
  if s.length < 5 then String.mk (List.replicate (5 - s.length) ' ') ++ s else s

/-! ## libc date formatting (gmtime_r + strftime "%Y/%m/%d") -/

/-- Civil-from-days: converts a count of days since 1970-01-01 to a
(year, month, day) triple of the proleptic Gregorian calendar, the
computation gmtime_r performs for non-negative timestamps. -/
def civil_from_days (days : Nat) : Nat × Nat × Nat :=
  let z := days + 719468
  let era := z / 146097
  let doe := z % 146097
  let yoe := (doe - doe / 1460 + doe / 36524 - doe / 146096) / 365
  let doy := doe - (365 * yoe + yoe / 4 - yoe / 100)
  let mp := (5 * doy + 2) / 153
  let d := doy - (153 * mp + 2) / 5 + 1
  let m := if mp < 10 then mp + 3 else mp - 9
  let y := yoe + era * 400 + (if m ≤ 2 then 1 else 0)
  (y, m, d)

/-- Zero-pads a number to two digits (strftime %m / %d). -/
def pad2 (n : Nat) : String :=
  if n < 10 then "0" ++ toString n else toString n

/-- strftime "%Y/%m/%d" in UTC of a non-negative Unix timestamp. -/
def format_date (ts : Nat) : String :=
  let ymd := civil_from_days (ts / 86400)
  toString ymd.1 ++ "/" ++ pad2 ymd.2.1 ++ "/" ++ pad2 ymd.2.2

/-! ## Data model: gpgme key records as seen by the renderer -/

/-- gpgme public-key algorithm tags distinguished by the server. -/
inductive GpgmePkAlgo
  | RSA | RSA_E | RSA_S | ELG | ELG_E | DSA | other
deriving DecidableEq, Repr

/-- One signature on a user identity (gpgme_key_sig_t). -/
structure KeySig where
  keyid : String
  name : String
  email : String
deriving DecidableEq, Repr

/-- One user identity of a key (gpgme_user_id_t).  The empty string
models an absent name/email: the C code normalises NULL and "" to the
same behaviour before use. -/
structure UserId where
  name : String
  email : String
  signatures : List KeySig
deriving DecidableEq, Repr

/-- A key record (gpgme_key_t restricted to the fields the server
reads: the primary subkey's fingerprint, bit length, algorithm and
creation timestamp, the revoked flag, and the user identities). -/
structure KeyRecord where
  fpr : String
  length : Nat
  pubkey_algo : GpgmePkAlgo
  timestamp : Nat
  revoked : Bool
  uids : List UserId
deriving DecidableEq, Repr

/-! ## HKP response templates -/

/-- HKP_ERROR_RESPONSE with the details substituted. -/
def HKP_ERROR_RESPONSE (details : String) : String :=
  "<title>Public Key Server -- Error</title><p>\r\n" ++
  "<h1>Public Key Server -- Error</h1><p>\r\n" ++ details

/-- HKP_VINDEX_PREFIX with the (already escaped) search term substituted. -/
def HKP_VINDEX_HEAD (t : String) : String :=
  "<title>Public Key Server -- Verbose Index ``" ++ t ++ "\x27\x27</title><p>" ++
  "<h1>Public Key Server -- Verbose Index ``" ++ t ++ "\x27\x27</h1><p>" ++
  "<pre>"

/-- HKP_INDEX_PREFIX with the (already escaped) search term substituted. -/
def HKP_INDEX_HEAD (t : String) : String :=
  "<title>Public Key Server -- Verbose Index ``" ++ t ++ "\x27\x27</title><p>" ++
  "<h1>Public Key Server -- Verbose Index ``" ++ t ++ "\x27\x27</h1><p>" ++
  "<pre>Type bits /keyID    Date       User ID\r\n"

/-- HKP_INDEX_SUFFIX. -/
def HKP_INDEX_FOOT : String := "</pre>"

/-- HKP_INDEX_REVOKED: the fixed marker substituted for identities of
revoked keys. -/
def HKP_INDEX_REVOKED : String := "*** KEY REVOKED ***"

/-- HKP_INDEX_FPR_LINE with the formatted fingerprint substituted. -/
def HKP_INDEX_FPR_LINE (t : String) : String :=
  "     Key fingerprint = " ++ t ++ "\r\n"

/-- HKP_INDEX_UID_LINE with the identity part substituted
(31 spaces of indentation). -/
def HKP_INDEX_UID_LINE (t : String) : String :=
  "                               " ++ t ++ "\r\n"

/-- HKP_GET_PREFIX with the (already escaped) search term substituted. -/
def HKP_GET_HEAD (t : String) : String :=
  "<title>Public Key Server -- Get ``" ++ t ++ "\x27\x27</title><p>\r\n" ++
  "<h1>Public Key Server -- Get ``" ++ t ++ "\x27\x27</h1><p>\r\n" ++
  "<pre>\r\n"

/-- HKP_GET_SUFFIX. -/
def HKP_GET_TAIL : String := "\r\n</pre>"

/-- HKP_ADD_RESPONSE. -/
def HKP_ADD_RESPONSE : String :=
  "<title>Public Key Server -- Error</title><p>\r\n" ++
  "<h1>Public Key Server -- Error</h1><p>\r\n" ++
  "Adding of keys not allowed"

/-- HKP_NOTFOUND_RESPONSE. -/
def HKP_NOTFOUND_RESPONSE : String :=
  "<HEAD><TITLE>404 Not Found</TITLE></HEAD><BODY>unknown uri in pks request</BODY>\r\n"

/-! ## The lookup response renderer -/

/-- `format_key_uid name keyid email`: empty name/email count as absent;
with both present renders "name &lt;<a ...>email</a>&gt;" (the link
targets an index lookup of the key id's last 8 characters); with only a
name renders the name followed by a space; otherwise the empty string. -/
def format_key_uid (name keyid email : String) : String :=
  let name0 := if name = "" then none else some name
  let email0 := if email = "" then none else some email
  match name0, email0 with
  | some n, some e =>
    n ++ " &lt;<a href=\"/pks/lookup?op=index&search=0x" ++ last_x keyid 8 ++
    "\">" ++ e ++ "</a>&gt;"
  | some n, none => n ++ " "
  | none, _ => ""

/-- `get_key_algo_letter`: single-letter algorithm code. -/
def get_key_algo_letter : GpgmePkAlgo → String
  | .RSA | .RSA_E | .RSA_S => "R"
  | .ELG | .ELG_E => "E"
  | .DSA => "D"
  | .other => "?"

/-- HKP_INDEX_KEY_LINE: the "pub"-line of one key with the identity part
substituted: bits as "% 5d", algorithm letter, the last 8 characters of
the fingerprint as a get-hyperlink, the creation date, the identity. -/
def hkp_key_line (key : KeyRecord) (uidpart : String) : String :=
  "pub " ++ printf_space5d key.length ++ get_key_algo_letter key.pubkey_algo ++
  "/<a href=\"/pks/lookup?op=get&search=0x" ++ last_x key.fpr 8 ++ "\">" ++
  last_x key.fpr 8 ++ "</a> " ++ format_date key.timestamp ++ " " ++
  uidpart ++ "\r\n"

/-- The identity part the loop of `append_key_info` prepares for a user
identity: for a revoked key it is the fixed marker (tested on every
iteration, so it applies to every line, not only the first); otherwise
`format_key_uid` of the identity with the key's fingerprint as key id. -/
def uid_part (key : KeyRecord) (u : UserId) : String :=
  if key.revoked then HKP_INDEX_REVOKED
  else format_key_uid u.name key.fpr u.email

/-- HKP_INDEX_SIG_LINE for one signature. -/
def sig_line (sig : KeySig) : String :=
  "sig        <a href=\"/pks/lookup?op=get&search=0x" ++ last_x sig.keyid 8 ++
  "\">" ++ last_x sig.keyid 8 ++ "</a>             " ++
  format_key_uid sig.name sig.keyid sig.email ++ "\r\n"

/-- The signature lines of one identity, emitted only when verbose. -/
def sig_lines (verbose : Bool) (u : UserId) : String :=
  if verbose then String.join (u.signatures.map sig_line) else ""

/-- One non-first loop iteration of `append_key_info`: a continuation
line with the identity part, followed by that identity's signature
lines when verbose. -/
def uid_cont_line (key : KeyRecord) (verbose : Bool) (u : UserId) : String :=
  HKP_INDEX_UID_LINE (uid_part key u) ++ sig_lines verbose u

/-- `append_key_info`: the index lines of one key.

The C loop walks the identity list with a `first` flag.  Each iteration
recomputes the identity part (`uid_part`, the revoked marker for revoked
keys).  The first iteration emits the "pub" line (plus the fingerprint
line when requested); later iterations emit continuation lines.  The
iteration advances to the next identity — and emits signature lines —
only when `!first || !revoked`; hence for a revoked key the first
identity is processed again as a continuation line, and all lines of a
revoked key carry the marker.  With no identities the function returns
early and emits nothing. -/
def append_key_info (key : KeyRecord) (verbose fingerprints : Bool) : String :=
  match key.uids with
  | [] => ""
  | u :: rest =>
    hkp_key_line key (uid_part key u) ++
    (if fingerprints then HKP_INDEX_FPR_LINE (format_key_fingerprint key.fpr) else "") ++
    (if key.revoked then
      String.join ((u :: rest).map (uid_cont_line key verbose))
    else
      sig_lines verbose u ++ String.join (rest.map (uid_cont_line key verbose)))

/-- The full index page for a (non-empty, in actual use) record list. -/
def render_index (records : List KeyRecord) (search : String)
    (verbose fingerprints : Bool) : String :=
  (if verbose then HKP_VINDEX_HEAD (escape_html search)
   else HKP_INDEX_HEAD (escape_html search)) ++
  String.join (records.map (fun k => append_key_info k verbose fingerprints)) ++
  HKP_INDEX_FOOT

/-! ## The Key Lookup Server dispatch -/

/-- The result of a gpgme key export (`lookup_handle_get`'s three gpgme
failure points: `gpgme_data_new` failing, `gpgme_op_export` failing, or
a successful export whose buffer may be empty). -/
inductive ExportResult
  | internalError
  | exportError
  | ok (text : String)
deriving DecidableEq, Repr

/-- `g_hash_table_lookup` on the parsed query arguments. -/
def tableLookup (args : List (String × String)) (k : String) : Option String :=
  (args.find? (fun p => p.1 == k)).map Prod.snd

/-- `lookup_handle_error`: sets the fixed error template around the
details as the body and returns SOUP_STATUS_OK — HKP returns 200 even
when errors occur. -/
def lookup_handle_error (details : String) : String × Nat :=
  (HKP_ERROR_RESPONSE details, 200)

/-- `lookup_handle_index`: renders an index (or verbose index) page.
The keystore listing is the external parameter `klist` (the gpgme
keylist operation): it may fail, or return the matching records. -/
def lookup_handle_index (klist : String → Except Unit (List KeyRecord))
    (args : List (String × String)) (verbose : Bool) : String × Nat :=
  let fingerprints := match tableLookup args "fingerprint" with
    | some t => g_ascii_strcaseeq t "on"
    | none => false
  match tableLookup args "search" with
  | none => lookup_handle_error "pks request did not include a <b>search</b> property"
  | some search =>
    if search = "" then
      lookup_handle_error "pks request did not include a <b>search</b> property"
    else match klist search with
      | .error _ => lookup_handle_error "Error retrieving key(s)"
      | .ok [] => lookup_handle_error "No matching keys in database"
      | .ok (k :: ks) => (render_index (k :: ks) search verbose fingerprints, 200)

/-- `lookup_handle_get`: exports one key as armored text.  The export is
the external parameter `kexport` (gpgme data/export operations). -/
def lookup_handle_get (kexport : String → ExportResult)
    (args : List (String × String)) : String × Nat :=
  match tableLookup args "search" with
  | none => lookup_handle_error "pks request did not include a <b>search</b> property"
  | some search =>
    if search = "" then
      lookup_handle_error "pks request did not include a <b>search</b> property"
    else match kexport search with
      | .internalError => lookup_handle_error "Internal error"
      | .exportError => lookup_handle_error "Error retrieving key(s)"
      | .ok key =>
        if key = "" then lookup_handle_error "No matching key in database"
        else (HKP_GET_HEAD (escape_html search) ++ key ++ HKP_GET_TAIL, 200)

/-- An HTTP response as the soup callbacks assemble it: the status code,
the body (when one was set), and whether a "Connection: close" response
header was appended. -/
structure HkpResponse where
  status : Nat
  body : Option String
  connClose : Bool
deriving DecidableEq, Repr

/-- The op-dispatch of `lookup_callback`: a missing or empty `op` is an
error; `index`, `vindex` and `get` are matched ASCII-case-insensitively
in that order; anything else is an invalid op. -/
def lookup_dispatch (klist : String → Except Unit (List KeyRecord))
    (kexport : String → ExportResult)
    (args : List (String × String)) : String × Nat :=
  match tableLookup args "op" with
  | none => lookup_handle_error "pks request did not include an <b>op</b> property"
  | some t =>
    if t = "" then
      lookup_handle_error "pks request did not include an <b>op</b> property"
    else if g_ascii_strcaseeq t "index" then lookup_handle_index klist args false
    else if g_ascii_strcaseeq t "vindex" then lookup_handle_index klist args true
    else if g_ascii_strcaseeq t "get" then lookup_handle_get kexport args
    else lookup_handle_error "pks request had an invalid <b>op</b> property"

/-- `lookup_callback` for `/pks/lookup`: appends "Connection: close"
first; a non-GET method gets 405 with no body; absent or empty query
arguments get the no-query-string error body with status 405; otherwise
the op dispatch runs and its returned code (always 200) becomes the
status. -/
def lookup_callback (klist : String → Except Unit (List KeyRecord))
    (kexport : String → ExportResult) (method : String)
    (args : List (String × String)) : HkpResponse :=
  if method ≠ "GET" then
    { status := 405, body := none, connClose := true }
  else if args.isEmpty then
    { status := 405,
      body := some (HKP_ERROR_RESPONSE "pks request had no query string"),
      connClose := true }
  else
    let r := lookup_dispatch klist kexport args
    { status := r.2, body := some r.1, connClose := true }

/-- `add_callback` for `/pks/add`: any method gets 405 with the fixed
"adding of keys not allowed" body and "Connection: close". -/
def add_callback : HkpResponse :=
  { status := 405, body := some HKP_ADD_RESPONSE, connClose := true }

/-- `default_callback` for every other path: 404 with the fixed
not-found body and "Connection: close". -/
def default_callback : HkpResponse :=
  { status := 404, body := some HKP_NOTFOUND_RESPONSE, connClose := true }

/-- The soup server's handler dispatch by path: the handlers registered
at "/pks/lookup" and "/pks/add" serve those subtrees, everything else
falls to the default handler. -/
def server_handle (klist : String → Except Unit (List KeyRecord))
    (kexport : String → ExportResult) (method path : String)
    (args : List (String × String)) : HkpResponse :=
  if strStarts path "/pks/lookup" then lookup_callback klist kexport method args
  else if strStarts path "/pks/add" then add_callback
  else default_callback

/-! ## Key Lookup Server lifecycle state -/

/-- The server's module state: whether the soup server handle and the
gpgme context are present (non-NULL). -/
structure HkpServerState where
  soup_server : Bool
  gpgme_ctx : Bool
deriving DecidableEq, Repr

/-- `seahorse_hkp_server_stop`: unrefs the soup server and releases the
gpgme context when they are present, clearing both pointers. -/
def seahorse_hkp_server_stop (s : HkpServerState) : HkpServerState :=
  let s1 := if s.soup_server then { s with soup_server := false } else s
  if s1.gpgme_ctx then { s1 with gpgme_ctx := false } else s1

/-- `seahorse_hkp_server_is_running`: the soup server handle is present. -/
def seahorse_hkp_server_is_running (s : HkpServerState) : Bool :=
  s.soup_server

/-! ## The Service Advertisement Manager state machine -/

/-- AVAHI_ERR_DISCONNECTED: the client-failure errno of a clean
daemon disconnect. -/
def AVAHI_ERR_DISCONNECTED : Int := -26

/-- The sharing module's Avahi state: the share name and collision
counter, and whether the entry-group and client handles are present. -/
structure AvahiState where
  share_name : Option String
  share_alternate : Nat
  avahi_group : Bool
  avahi_client : Bool
deriving DecidableEq, Repr

/-- Externally visible actions of the advertisement manager, in the
order they are performed. -/
inductive AvahiAction
  | AddService (name : String) (port : Nat)
  | Commit
  | ResetGroup
  | ShowError
  | Sleep (secs : Nat)
  | NewClient
deriving DecidableEq, Repr

/-- The Avahi entry-group states the services callback reacts to. -/
inductive AvahiEntryGroupState
  | collision
  | failure
  | other
deriving DecidableEq, Repr

/-- The Avahi client states the client callback reacts to. -/
inductive AvahiClientState
  | running
  | collision
  | failure (errno : Int)
  | other
deriving DecidableEq, Repr

/-- `stop_publishing errmsg`: frees the share name, the entry group and
the client; shows the "Couldn't share keys" error exactly when `errmsg`
is set. -/
def stop_publishing (errmsg : Bool) (s : AvahiState) : AvahiState × List AvahiAction :=
  ({ share_name := none, share_alternate := s.share_alternate,
     avahi_group := false, avahi_client := false },
   if errmsg then [AvahiAction.ShowError] else [])

/-- `calc_share_name`: recomputes the share name from the base name
(the localised "{user}'s encryption keys" string, passed in as `base`);
when the collision counter is non-zero, " #{counter}" is appended. -/
def calc_share_name (base : String) (s : AvahiState) : AvahiState :=
  let name := base
  let name := if s.share_alternate ≠ 0
    then name ++ " #" ++ toString s.share_alternate else name
  { s with share_name := some name }

/-- `add_service`: registers the service record under the current share
name and the HKP server's port, then commits the group; `regOk` stands
for the Avahi registration/commit outcome.  On failure the manager is
torn down with a user-visible error. -/
def add_service (port : Nat) (regOk : Bool) (s : AvahiState) : AvahiState × List AvahiAction :=
  let attempt := AvahiAction.AddService (s.share_name.getD "") port
  if regOk then (s, [attempt, AvahiAction.Commit])
  else
    let r := stop_publishing true s
    (r.1, attempt :: r.2)

/-- `services_callback`: entry-group state changes.  On a collision the
counter is incremented, the name recomputed, and registration retried
in the same invocation; on failure the manager is torn down with an
error. -/
def services_callback (base : String) (port : Nat) (regOk : Bool)
    (st : AvahiEntryGroupState) (s : AvahiState) : AvahiState × List AvahiAction :=
  match st with
  | .collision =>
    let s1 := calc_share_name base { s with share_alternate := s.share_alternate + 1 }
    add_service port regOk s1
  | .failure => stop_publishing true s
  | .other => (s, [])

/-- `start_publishing`: resets the collision counter to 0, recomputes
the share name, and creates a new Avahi client; `clientNewOk` stands
for the client-creation outcome (the creation is attempted either
way). -/
def start_publishing (base : String) (clientNewOk : Bool)
    (s : AvahiState) : AvahiState × List AvahiAction :=
  let s1 := calc_share_name base { s with share_alternate := 0 }
  if clientNewOk then ({ s1 with avahi_client := true }, [AvahiAction.NewClient])
  else (s1, [AvahiAction.NewClient])

/-- `client_callback`: client state changes.  Running creates the entry
group when absent (`groupNewOk` stands for the creation outcome) and
registers the service; a client collision resets the group's
registrations; a client failure shows an error unless the errno is a
clean disconnect, tears down fully, sleeps one second and attempts a
full restart. -/
def client_callback (base : String) (port : Nat)
    (regOk groupNewOk clientNewOk : Bool)
    (st : AvahiClientState) (s : AvahiState) : AvahiState × List AvahiAction :=
  match st with
  | .running =>
    if s.avahi_group then add_service port regOk s
    else if groupNewOk then add_service port regOk { s with avahi_group := true }
    else stop_publishing true s
  | .collision =>
    if s.avahi_group then (s, [AvahiAction.ResetGroup]) else (s, [])
  | .failure errno =>
    let errmsg : Bool := errno != AVAHI_ERR_DISCONNECTED
    let r1 := stop_publishing errmsg s
    let r2 := start_publishing base clientNewOk r1.1
    (r2.1, r1.2 ++ [AvahiAction.Sleep 1] ++ r2.2)
  | .other => (s, [])

/-- Iterated entry-group collisions: the state after `n` collision
events delivered to `services_callback` (each retry registering
successfully, so the group survives to collide again). -/
def collideN (base : String) (port : Nat) (s : AvahiState) : Nat → AvahiState
  | 0 => s
  | n + 1 => (services_callback base port true .collision (collideN base port s n)).1

/-- The manager state right after a successful `start_publishing` from
scratch. -/
def publish_init (base : String) (clientNewOk : Bool) : AvahiState :=
  (start_publishing base clientNewOk
    { share_name := none, share_alternate := 0,
      avahi_group := false, avahi_client := false }).1

/-! ## Sharing lifecycle (start_sharing / stop_sharing) -/

/-- The whole daemon-side sharing state: the HKP server state and the
Avahi advertisement state. -/
structure SharingState where
  hkp : HkpServerState
  avahi : AvahiState
deriving DecidableEq, Repr

/-- `stop_sharing`: stops publishing without an error message, then
stops the HKP server when it is running. -/
def stop_sharing (s : SharingState) : SharingState × List AvahiAction :=
  let r := stop_publishing false s.avahi
  let h := if seahorse_hkp_server_is_running s.hkp
    then seahorse_hkp_server_stop s.hkp else s.hkp
  ({ hkp := h, avahi := r.1 }, r.2)


/-! ## Concrete instances used by witnesses and counterexamples -/

/-- A keystore listing that never fails and never matches. -/
def emptyKlist : String → Except Unit (List KeyRecord) := fun _ => Except.ok []

/-- A key export that always returns a fixed armored blob. -/
def armorExport : String → ExportResult := fun _ => ExportResult.ok "ARMORED KEY MATERIAL"

/-- An export that always returns an empty buffer. -/
def noExport : String → ExportResult := fun _ => ExportResult.ok ""

/-- The non-revoked 2048-bit RSA record of the index scenario:
fingerprint "AAAA1111BBBB2222", created 2020-01-15 UTC, one identity
named "Alice". -/
def aliceKey : KeyRecord :=
  { fpr := "AAAA1111BBBB2222", length := 2048, pubkey_algo := .RSA,
    timestamp := 1579046400, revoked := false,
    uids := [{ name := "Alice", email := "", signatures := [] }] }

/-- A keystore listing matching `aliceKey` for the term "alice". -/
def aliceKlist : String → Except Unit (List KeyRecord) :=
  fun s => if s = "alice" then Except.ok [aliceKey] else Except.ok []

/-- The server's response for GET /pks/lookup?op=index&search=alice
against `aliceKlist`. -/
def aliceIndexResponse : HkpResponse :=
  server_handle aliceKlist noExport "GET" "/pks/lookup"
    [("op", "index"), ("search", "alice")]

/-- A revoked record with two user identities named "Alice" and "Bob". -/
def revokedTwoUidKey : KeyRecord :=
  { fpr := "AAAA1111BBBB2222", length := 2048, pubkey_algo := .RSA,
    timestamp := 1579046400, revoked := true,
    uids := [{ name := "Alice", email := "", signatures := [] },
             { name := "Bob", email := "", signatures := [] }] }

/-! ## Helper lemmas -/

/-- Every outcome of `lookup_handle_index` carries status code 200. -/
theorem lookup_handle_index_snd (klist : String → Except Unit (List KeyRecord))
    (args : List (String × String)) (verbose : Bool) :
    (lookup_handle_index klist args verbose).2 = 200 := by
  unfold lookup_handle_index lookup_handle_error
  dsimp only
  repeat' split
  all_goals rfl

/-- Every outcome of `lookup_handle_get` carries status code 200. -/
theorem lookup_handle_get_snd (kexport : String → ExportResult)
    (args : List (String × String)) :
    (lookup_handle_get kexport args).2 = 200 := by
  unfold lookup_handle_get lookup_handle_error
  repeat' split
  all_goals rfl

/-- Every outcome of the op dispatch carries status code 200. -/
theorem lookup_dispatch_snd (klist : String → Except Unit (List KeyRecord))
    (kexport : String → ExportResult) (args : List (String × String)) :
    (lookup_dispatch klist kexport args).2 = 200 := by
  unfold lookup_dispatch lookup_handle_error
  repeat' split
  all_goals
    first
      | rfl
      | exact lookup_handle_index_snd ..
      | exact lookup_handle_get_snd ..

/-! ## Claim theorems -/

set_option maxRecDepth 1000000

/-- C10: for every user identity or signature whose email is present and
non-empty but whose name is absent or empty, `format_key_uid` returns
the empty string — an email without a name is never rendered, neither as
bare text nor as a hyperlink. -/
theorem email_without_name_renders_empty (name keyid email : String)
    (hname : name = "") (hemail : email ≠ "") :
    format_key_uid name keyid email = "" := by
  subst hname
  simp [format_key_uid]

theorem email_without_name_renders_empty_witness :
    format_key_uid "" "AAAA1111BBBB2222" "bob@example.com" = "" :=
  email_without_name_renders_empty "" "AAAA1111BBBB2222" "bob@example.com" rfl
    (by decide)

/-- C6: for every get lookup whose key export yields non-empty armored
key text, the response body is exactly the get header (containing the
HTML-escaped search term) followed by the exported key material
byte-for-byte, unescaped, between the fixed pre and post markers. -/
theorem get_response_exact_body (kexport : String → ExportResult)
    (args : List (String × String)) (search key : String)
    (hs : tableLookup args "search" = some search) (hsne : search ≠ "")
    (hk : kexport search = ExportResult.ok key) (hkne : key ≠ "") :
    lookup_handle_get kexport args =
      (HKP_GET_HEAD (escape_html search) ++ key ++ HKP_GET_TAIL, 200) := by
  simp [lookup_handle_get, hs, hsne, hk, hkne]

theorem get_response_exact_body_witness :
    lookup_handle_get armorExport [("op", "get"), ("search", "0xBBBB2222")] =
      (HKP_GET_HEAD (escape_html "0xBBBB2222") ++ "ARMORED KEY MATERIAL" ++
        HKP_GET_TAIL, 200) :=
  get_response_exact_body armorExport [("op", "get"), ("search", "0xBBBB2222")]
    "0xBBBB2222" "ARMORED KEY MATERIAL" rfl (by decide) rfl (by decide)

/-- C7: stopping the Key Lookup Server when it is not running, and
stopping sharing when sharing is already stopped, are no-ops: a second
consecutive stop produces no error (no user-visible action) and leaves
the whole state — server handle, keystore session, advertisement
client/group handles, share name — unchanged. -/
theorem stop_idempotent_no_error (s : SharingState) :
    seahorse_hkp_server_stop (seahorse_hkp_server_stop s.hkp) =
      seahorse_hkp_server_stop s.hkp ∧
    (stop_sharing s).2 = [] ∧
    stop_sharing (stop_sharing s).1 = ((stop_sharing s).1, []) := by
  rcases s with ⟨⟨ss, gc⟩, ⟨nm, alt, gr, cl⟩⟩
  cases ss <;> cases gc <;>
    simp [stop_sharing, stop_publishing, seahorse_hkp_server_stop,
      seahorse_hkp_server_is_running]

/-- C8: every HTTP response produced by the server, regardless of route
— /pks/lookup (including the 405 method rejection and the
no-query-string case), /pks/add, and any other path — carries a
"Connection: close" response header. -/
theorem connection_close_always (klist : String → Except Unit (List KeyRecord))
    (kexport : String → ExportResult) (method path : String)
    (args : List (String × String)) :
    (server_handle klist kexport method path args).connClose = true := by
  unfold server_handle lookup_callback add_callback default_callback
  repeat' split
  all_goals rfl

/-- C1 (counterexample): on a revoked record with the two identities
"Alice" and "Bob", the renderer does NOT emit the subsequent identity
"Bob" with its real formatted identity (which would be the text
"Bob ") — no occurrence of "Bob" appears anywhere in the output;
instead the continuation lines carry the revoked marker too. -/
theorem revoked_subsequent_identity_not_preserved :
    strContains (append_key_info revokedTwoUidKey false false) "Bob" = false ∧
    strContains (append_key_info revokedTwoUidKey false false)
      (HKP_INDEX_UID_LINE HKP_INDEX_REVOKED) = true := by
  constructor <;> decide

/-- C1 (amended): for every revoked key record with at least one user
identity, the revoked marker replaces the identity on EVERY line, not
only the primary one: the loop recomputes the identity part (the
marker) on each iteration and does not advance past the first identity
while `first` is set, so the first identity is re-emitted as a
continuation line and every continuation line carries the marker
(signature lines, when verbose, are still emitted per identity). -/
theorem revoked_marker_on_every_line (key : KeyRecord)
    (verbose fingerprints : Bool) (u : UserId) (rest : List UserId)
    (hrev : key.revoked = true) (hu : key.uids = u :: rest) :
    append_key_info key verbose fingerprints =
      hkp_key_line key HKP_INDEX_REVOKED ++
      (if fingerprints then HKP_INDEX_FPR_LINE (format_key_fingerprint key.fpr)
       else "") ++
      String.join ((u :: rest).map
        (fun v => HKP_INDEX_UID_LINE HKP_INDEX_REVOKED ++ sig_lines verbose v)) := by
  have hc : uid_cont_line key verbose =
      fun v => HKP_INDEX_UID_LINE HKP_INDEX_REVOKED ++ sig_lines verbose v :=
    funext fun v => by simp [uid_cont_line, uid_part, hrev]
  simp [append_key_info, hu, uid_part, hrev, hc]

theorem revoked_marker_on_every_line_witness :
    append_key_info revokedTwoUidKey false false =
      hkp_key_line revokedTwoUidKey HKP_INDEX_REVOKED ++
      (if false then
        HKP_INDEX_FPR_LINE (format_key_fingerprint revokedTwoUidKey.fpr)
       else "") ++
      String.join
        (([{ name := "Alice", email := "", signatures := [] },
           { name := "Bob", email := "", signatures := [] }] : List UserId).map
          (fun v => HKP_INDEX_UID_LINE HKP_INDEX_REVOKED ++ sig_lines false v)) :=
  revoked_marker_on_every_line revokedTwoUidKey false false
    { name := "Alice", email := "", signatures := [] }
    [{ name := "Bob", email := "", signatures := [] }] rfl rfl

/-- C2: for every GET request to /pks/lookup: with no query parameters
at all the status is 405 together with the missing-query-string error
body; with query parameters present the status is always 200, whatever
the op and whatever the keystore outcome, the error being embedded in
the HTML body — in particular a missing or empty op yields 200 with the
missing-op error body. -/
theorem lookup_errors_status (klist : String → Except Unit (List KeyRecord))
    (kexport : String → ExportResult) (args : List (String × String)) :
    (args = [] →
      lookup_callback klist kexport "GET" args =
        { status := 405,
          body := some (HKP_ERROR_RESPONSE "pks request had no query string"),
          connClose := true }) ∧
    (args ≠ [] → (lookup_callback klist kexport "GET" args).status = 200) ∧
    (args ≠ [] →
      (tableLookup args "op" = none ∨ tableLookup args "op" = some "") →
      lookup_callback klist kexport "GET" args =
        { status := 200,
          body := some (HKP_ERROR_RESPONSE
            "pks request did not include an <b>op</b> property"),
          connClose := true }) := by
  refine ⟨fun h => ?_, fun h => ?_, fun h hop => ?_⟩
  · subst h
    rfl
  · have hne : args.isEmpty = false := by
      cases args with
      | nil => exact absurd rfl h
      | cons a as => rfl
    simp [lookup_callback, hne, lookup_dispatch_snd]
  · have hne : args.isEmpty = false := by
      cases args with
      | nil => exact absurd rfl h
      | cons a as => rfl
    rcases hop with hop | hop <;>
      simp [lookup_callback, hne, lookup_dispatch, hop, lookup_handle_error]

theorem lookup_errors_status_witness :
    (lookup_callback emptyKlist noExport "GET" [] =
      { status := 405,
        body := some (HKP_ERROR_RESPONSE "pks request had no query string"),
        connClose := true }) ∧
    (lookup_callback emptyKlist noExport "GET" [("op", "")]).status = 200 ∧
    lookup_callback emptyKlist noExport "GET" [("op", "")] =
      { status := 200,
        body := some (HKP_ERROR_RESPONSE
          "pks request did not include an <b>op</b> property"),
        connClose := true } :=
  ⟨(lookup_errors_status emptyKlist noExport []).1 rfl,
   (lookup_errors_status emptyKlist noExport [("op", "")]).2.1 (by decide),
   (lookup_errors_status emptyKlist noExport [("op", "")]).2.2 (by decide)
     (Or.inr rfl)⟩

/-- An op matching "vindex" case-insensitively cannot also match
"index" (the dispatch tests "index" first). -/
theorem caseeq_vindex_not_index (op : String)
    (h : g_ascii_strcaseeq op "vindex" = true) :
    g_ascii_strcaseeq op "index" = false := by
  unfold g_ascii_strcaseeq at h ⊢
  have he : op.data.map g_ascii_tolower = "vindex".data.map g_ascii_tolower :=
    eq_of_beq h
  rw [he]
  decide

/-- C3: for every index or vindex lookup with a non-empty search term
for which the keystore returns zero matching records, the server
responds HTTP 200 with the "No matching keys in database" error body;
and the index renderer is only ever invoked on a non-empty record
sequence — every outcome of `lookup_handle_index` is either an error
response or a rendered index of at least one record. -/
theorem index_zero_matches_error (klist : String → Except Unit (List KeyRecord))
    (kexport : String → ExportResult) (args : List (String × String))
    (op search : String)
    (hargs : args ≠ [])
    (hop : tableLookup args "op" = some op)
    (hcase : g_ascii_strcaseeq op "index" = true ∨
      g_ascii_strcaseeq op "vindex" = true)
    (hs : tableLookup args "search" = some search)
    (hsne : search ≠ "")
    (hk : klist search = Except.ok []) :
    lookup_callback klist kexport "GET" args =
      { status := 200,
        body := some (HKP_ERROR_RESPONSE "No matching keys in database"),
        connClose := true } ∧
    ∀ (klist2 : String → Except Unit (List KeyRecord))
      (args2 : List (String × String)) (v2 : Bool),
      (∃ m, lookup_handle_index klist2 args2 v2 = lookup_handle_error m) ∨
      (∃ k ks s f, lookup_handle_index klist2 args2 v2 =
        (render_index (k :: ks) s v2 f, 200)) := by
  have hne : args.isEmpty = false := by
    cases args with
    | nil => exact absurd rfl hargs
    | cons a as => rfl
  have hopne : op ≠ "" := by
    intro h0
    subst h0
    rcases hcase with h | h <;> exact absurd h (by decide)
  constructor
  · rcases hcase with h | h
    · simp [lookup_callback, hne, lookup_dispatch, hop, hopne, h,
        lookup_handle_index, hs, hsne, hk, lookup_handle_error]
    · have hnotidx := caseeq_vindex_not_index op h
      simp [lookup_callback, hne, lookup_dispatch, hop, hopne, h, hnotidx,
        lookup_handle_index, hs, hsne, hk, lookup_handle_error]
  · intro klist2 args2 v2
    cases hts : tableLookup args2 "search" with
    | none =>
      exact Or.inl ⟨"pks request did not include a <b>search</b> property",
        by simp [lookup_handle_index, lookup_handle_error, hts]⟩
    | some s2 =>
      by_cases hs2 : s2 = ""
      · exact Or.inl ⟨"pks request did not include a <b>search</b> property",
          by simp [lookup_handle_index, lookup_handle_error, hts, hs2]⟩
      · cases hkl : klist2 s2 with
        | error e =>
          exact Or.inl ⟨"Error retrieving key(s)",
            by simp [lookup_handle_index, lookup_handle_error, hts, hs2, hkl]⟩
        | ok recs =>
          cases recs with
          | nil =>
            exact Or.inl ⟨"No matching keys in database",
              by simp [lookup_handle_index, lookup_handle_error, hts, hs2, hkl]⟩
          | cons k ks =>
            refine Or.inr ⟨k, ks, s2,
              (match tableLookup args2 "fingerprint" with
                | some t => g_ascii_strcaseeq t "on"
                | none => false), ?_⟩
            simp [lookup_handle_index, hts, hs2, hkl]

theorem index_zero_matches_error_witness :
    lookup_callback emptyKlist noExport "GET"
        [("op", "index"), ("search", "nobody")] =
      { status := 200,
        body := some (HKP_ERROR_RESPONSE "No matching keys in database"),
        connClose := true } :=
  (index_zero_matches_error emptyKlist noExport
    [("op", "index"), ("search", "nobody")] "index" "nobody"
    (by decide) rfl (Or.inl (by decide)) rfl (by decide) rfl).1

/-- The collision counter after `n` collision events grows by `n`. -/
theorem collideN_share_alternate (base : String) (port : Nat) (s : AvahiState)
    (n : Nat) :
    (collideN base port s n).share_alternate = s.share_alternate + n := by
  induction n with
  | zero => rfl
  | succ m ih =>
    simp [collideN, services_callback, add_service, calc_share_name, ih]
    omega

/-- Collision events do not touch the client or group handles. -/
theorem collideN_handles (base : String) (port : Nat) (s : AvahiState)
    (n : Nat) :
    (collideN base port s n).avahi_group = s.avahi_group ∧
    (collideN base port s n).avahi_client = s.avahi_client := by
  induction n with
  | zero => exact ⟨rfl, rfl⟩
  | succ m ih =>
    simp [collideN, services_callback, add_service, calc_share_name, ih.1, ih.2]

/-- `publish_init` yields the freshly computed name (no suffix), counter
0, no group, and the client iff its creation succeeded. -/
theorem publish_init_fields (base : String) (clientNewOk : Bool) :
    publish_init base clientNewOk =
      { share_name := some base, share_alternate := 0,
        avahi_group := false, avahi_client := clientNewOk } := by
  cases clientNewOk <;> rfl

/-- C4: after the N-th entry-group collision (N ≥ 1) the share name is
the base name followed by " #N", the collision counter is N, the client
and group handles are untouched, and the N-th collision invocation
itself re-registers (AddService with the newly computed name, then
Commit) within the same callback. -/
theorem collision_rename_and_retry (base : String) (port : Nat)
    (clientNewOk : Bool) (n : Nat) (hn : 1 ≤ n) :
    (collideN base port (publish_init base clientNewOk) n).share_alternate = n ∧
    (collideN base port (publish_init base clientNewOk) n).share_name =
      some (base ++ " #" ++ toString n) ∧
    (collideN base port (publish_init base clientNewOk) n).avahi_group =
      (publish_init base clientNewOk).avahi_group ∧
    (collideN base port (publish_init base clientNewOk) n).avahi_client =
      (publish_init base clientNewOk).avahi_client ∧
    (services_callback base port true AvahiEntryGroupState.collision
        (collideN base port (publish_init base clientNewOk) (n - 1))).1 =
      collideN base port (publish_init base clientNewOk) n ∧
    (services_callback base port true AvahiEntryGroupState.collision
        (collideN base port (publish_init base clientNewOk) (n - 1))).2 =
      [AvahiAction.AddService (base ++ " #" ++ toString n) port,
       AvahiAction.Commit] := by
  cases n with
  | zero => exact absurd hn (by decide)
  | succ m =>
    have halt : (collideN base port (publish_init base clientNewOk) m).share_alternate
        = m := by
      rw [collideN_share_alternate, publish_init_fields]
      simp
    have haltS : (collideN base port (publish_init base clientNewOk) (m + 1)).share_alternate
        = m + 1 := by
      rw [collideN_share_alternate, publish_init_fields]
      simp
    have hname : (collideN base port (publish_init base clientNewOk) (m + 1)).share_name
        = some (base ++ " #" ++ toString (m + 1)) := by
      simp [collideN, services_callback, add_service, calc_share_name, halt]
    refine ⟨haltS, hname,
      (collideN_handles base port (publish_init base clientNewOk) (m + 1)).1,
      (collideN_handles base port (publish_init base clientNewOk) (m + 1)).2,
      by simp [collideN], ?_⟩
    simp [collideN, services_callback, add_service, calc_share_name, halt]

theorem collision_rename_and_retry_witness :
    (collideN "Shared keys" 11371 (publish_init "Shared keys" true) 1).share_name
      = some ("Shared keys" ++ " #" ++ toString 1) :=
  (collision_rename_and_retry "Shared keys" 11371 true 1 (by decide)).2.1

/-- C5: on client failure the manager tears down fully (the
intermediate `stop_publishing` clears name, group and client), shows
the user-visible error exactly when the errno is not a clean
disconnect, and then — after the fixed one-second delay — attempts a
full restart unconditionally: the trace ends with Sleep 1 followed by
the new-client attempt, and the resulting state has collision counter
0, the freshly computed share name, no group, and the new client iff
its creation succeeded. -/
theorem client_failure_teardown_restart (base : String) (port : Nat)
    (regOk groupNewOk clientNewOk : Bool) (errno : Int) (s : AvahiState) :
    (stop_publishing (errno != AVAHI_ERR_DISCONNECTED) s).1 =
      { share_name := none, share_alternate := s.share_alternate,
        avahi_group := false, avahi_client := false } ∧
    ((errno != AVAHI_ERR_DISCONNECTED) = true ↔
      AvahiAction.ShowError ∈
        (stop_publishing (errno != AVAHI_ERR_DISCONNECTED) s).2) ∧
    client_callback base port regOk groupNewOk clientNewOk
        (AvahiClientState.failure errno) s =
      ({ share_name := some base, share_alternate := 0,
         avahi_group := false, avahi_client := clientNewOk },
       (if errno = AVAHI_ERR_DISCONNECTED then [] else [AvahiAction.ShowError]) ++
       [AvahiAction.Sleep 1, AvahiAction.NewClient]) := by
  by_cases h : errno = AVAHI_ERR_DISCONNECTED <;>
    cases clientNewOk <;>
      simp [client_callback, stop_publishing, start_publishing,
        calc_share_name, bne, h]

/-- C9 (counterexample): in the index scenario (one non-revoked record,
bits 2048, RSA, fingerprint "AAAA1111BBBB2222", created 2020-01-15,
identity "Alice", search term "alice") the response is 200 and carries
the date and the name — but the claimed contiguous substring
"pub  2048R/11BBBB2222" does not occur: the key id rendered is the
LAST 8 hex characters "BBBB2222" (not the last 10), and it is wrapped
in a get-hyperlink between the "R/" and the id. -/
theorem index_scenario_contiguous_substring_absent :
    aliceIndexResponse.status = 200 ∧
    strContains (aliceIndexResponse.body.getD "") "2020/01/15" = true ∧
    strContains (aliceIndexResponse.body.getD "") "Alice" = true ∧
    strContains (aliceIndexResponse.body.getD "") "pub  2048R/11BBBB2222"
      = false := by
  refine ⟨by decide, by decide, by decide, by decide⟩

/-- C9 (amended): in the same scenario the response has status 200 and
its body contains the full key line consistent with the last-8-hex
rule: "pub  2048R/" followed by the get-hyperlink whose target and
label are "BBBB2222", then the date "2020/01/15" and "Alice". -/
theorem index_scenario_key_line_amended :
    aliceIndexResponse.status = 200 ∧
    strContains (aliceIndexResponse.body.getD "")
      ("pub  2048R/<a href=\"/pks/lookup?op=get&search=0xBBBB2222\">" ++
       "BBBB2222</a> 2020/01/15 Alice ") = true := by
  exact ⟨by decide, by decide⟩
